import Mathlib

/-!
Shallow embedding of the MyPDFBackend Flask application (src/app.py).

The application exposes two endpoints:
* `compress_pdf` (`/compress-pdf`): decodes a base64 PDF, writes it to a
  temporary input file, builds a Ghostscript command whose flags depend on the
  requested compression level (`extreme`, `less`, or anything else which takes
  the `recommended` branch), runs the tool, reads the produced output file and
  returns it base64-encoded together with sizes in kilobytes; a `finally`
  block unlinks the temporary paths that were recorded.
* `pdf_to_text` (`/pdf-to-text`): decodes a base64 PDF, opens it with PyMuPDF
  and concatenates each page's extracted text in page order, returning it
  base64-encoded.

Effectful library calls (Flask's `request.get_json`, `base64.b64decode`,
`tempfile.NamedTemporaryFile`, file writes/reads, `subprocess.run`,
`fitz.open`) are modelled as oracle fields of an environment record; the
handler bodies themselves are transcribed statement by statement.  The model
additionally returns the set of temporary files left on disk and a trace of
the effectful steps that executed, so that resource-cleanup and
"nothing runs before validation" properties can be stated.
-/

/-- Fields of the JSON request body that the handlers read.  A key that is
absent from the JSON object is `none`. -/
structure ReqBody where
  pdfFileBase64 : Option String
  fileName : Option String
  compressionLevel : Option String
  deriving DecidableEq, Repr

/-- Outcome of the `subprocess.run(ghostscript_command, ...)` call:
either the executable is absent (Python raises `FileNotFoundError`, carried
here as its message), or the process completed with a return code and a
captured stderr text. -/
inductive ToolOutcome where
  | notFound (msg : String)
  | completed (returncode : Int) (stderr : String)
  deriving DecidableEq, Repr

/-- Oracle environment for one invocation of `compress_pdf`.  `Option String`
fields are `none` when the corresponding effectful step succeeds and
`some msg` when it raises an exception with message `msg`. -/
structure CompressEnv where
  body : Option ReqBody
  b64decodeResult : Except String (List Nat)
  mkTempInputErr : Option String
  writeInputErr : Option String
  mkTempOutputErr : Option String
  writeOutputErr : Option String
  tempInputPath : String
  tempOutputPath : String
  toolOutcome : ToolOutcome
  readOutputErr : Option String
  outputBytes : List Nat
  deriving Repr

/-- Oracle environment for one invocation of `pdf_to_text`.  `fitzDoc` is the
outcome of `fitz.open`: on success it carries, per page in page order, the
text `page.get_text("text")` returns. -/
structure TextEnv where
  body : Option ReqBody
  b64decodeResult : Except String (List Nat)
  fitzDoc : Except String (List String)
  deriving Repr

/-- Effectful steps of the handlers, recorded in execution order. -/
inductive Event where
  | getJson
  | b64decode
  | createTempInput
  | writeTempInput
  | createTempOutput
  | writeTempOutput
  | runTool (cmd : List String)
  | readOutput
  | unlinkInput
  | unlinkOutput
  | openDocument
  deriving DecidableEq, Repr

/-- Which temporary files currently exist on disk, and which path variables
(`temp_input_path`, `temp_output_path`) have been assigned (are not `None`).
A `NamedTemporaryFile(delete=False)` context creates the file on entry, while
the path variable is assigned only by the statement after the write inside
the `with` block. -/
structure St where
  inputFileExists : Bool
  inputPathSet : Bool
  outputFileExists : Bool
  outputPathSet : Bool
  deriving DecidableEq, Repr

/-- Successful JSON payload of `/compress-pdf` (the `jsonify` dictionary). -/
structure OkBody where
  body : String
  isBase64Encoded : Bool
  fileName : String
  originalSize : Rat
  compressedSize : Rat
  compressionLevelApplied : String
  deriving DecidableEq, Repr

/-- HTTP response of `/compress-pdf`: 200 with the success payload, 400 with
an error message, or 500 with an error message. -/
inductive HttpResp where
  | ok (payload : OkBody)
  | clientError (msg : String)
  | serverError (msg : String)
  deriving DecidableEq, Repr

/-- HTTP status code attached to each `jsonify(...), code` return. -/
def statusCode : HttpResp → Nat
  | HttpResp.ok _ => 200
  | HttpResp.clientError _ => 400
  | HttpResp.serverError _ => 500

/-- HTTP response of `/pdf-to-text`. -/
inductive TextResp where
  | ok (fileContentBase64 : String) (fileName : String) (mimeType : String)
  | clientError (msg : String)
  | serverError (msg : String)
  deriving DecidableEq, Repr

/-- HTTP status code of a `/pdf-to-text` response. -/
def textStatusCode : TextResp → Nat
  | TextResp.ok _ _ _ => 200
  | TextResp.clientError _ => 400
  | TextResp.serverError _ => 500

/-- Result of the `try` block: a normal `return` with a response, or an
exception propagating to the `except` clause. -/
inductive TryResult where
  | ret (r : HttpResp)
  | exn (msg : String)
  deriving DecidableEq, Repr

/-- Whitespace characters removed by Python `str.strip()` (its ASCII
whitespace set: space, tab, newline, carriage return, vertical tab, form
feed). -/
def isPyWs (c : Char) : Bool :=
  c = ' ' || c = '\t' || c = '\n' || c = '\r' || c = '\x0b' || c = '\x0c'

/-- Drop leading whitespace characters. -/
def dropLeadingWs : List Char → List Char
  | [] => []
  | c :: rest => if isPyWs c then dropLeadingWs rest else c :: rest

/-- Model of Python `str.strip()`: remove leading and trailing whitespace. -/
def pyStrip (s : String) : String :=
  String.mk ((dropLeadingWs (dropLeadingWs s.data).reverse).reverse)

/-- Index of the last occurrence of a dot character in a character list. -/
def lastDotIdx : List Char → Option Nat
  | [] => none
  | c :: rest =>
    match lastDotIdx rest with
    | some i => some (i + 1)
    | none => if c = '.' then some 0 else none

/-- Model of `os.path.splitext` for plain file names (no path separators, the
shape of the `fileName` field both handlers receive): split at the last dot,
unless every character before it is itself a dot (so `.bashrc` keeps no
extension), in which case the extension is empty. -/
def splitext (s : String) : String × String :=
  let cs := s.data
  match lastDotIdx cs with
  | none => (s, "")
  | some i =>
    if (cs.take i).any (fun c => c != '.') then
      (String.mk (cs.take i), String.mk (cs.drop i))
    else (s, "")

/-- Standard base64 alphabet, as used by Python `base64.b64encode`. -/
def b64Alphabet : List Char :=
  "ABCDEFGHIJKLMNOPQRSTUVWXYZabcdefghijklmnopqrstuvwxyz0123456789+/".data

/-- Character for one 6-bit group. -/
def b64Char (n : Nat) : Char := b64Alphabet.getD n 'A'

/-- Model of Python `base64.b64encode` (followed by `.decode("utf-8")`) on a
byte list: 3 input bytes become 4 alphabet characters, a trailing group of 1
or 2 bytes is padded with `=`. -/
def b64encode : List Nat → String
  | [] => ""
  | [a] =>
    String.mk [b64Char (a / 4 % 64), b64Char (a % 4 * 16), '=', '=']
  | [a, b] =>
    String.mk [b64Char (a / 4 % 64), b64Char (a % 4 * 16 + b / 16),
      b64Char (b % 16 * 4), '=']
  | a :: b :: c :: rest =>
    String.mk [b64Char (a / 4 % 64), b64Char (a % 4 * 16 + b / 16),
      b64Char (b % 16 * 4 + c / 64), b64Char (c % 64)] ++ b64encode rest

/-- UTF-8 encoding of one character (1 to 4 bytes). -/
def utf8Bytes (c : Char) : List Nat :=
  let n := c.toNat
  if n < 128 then [n]
  else if n < 2048 then [192 + n / 64, 128 + n % 64]
  else if n < 65536 then [224 + n / 4096, 128 + n / 64 % 64, 128 + n % 64]
  else [240 + n / 262144, 128 + n / 4096 % 64, 128 + n / 64 % 64, 128 + n % 64]

/-- Model of Python `text.encode("utf-8")`. -/
def utf8Encode (s : String) : List Nat := s.data.flatMap utf8Bytes

/-- Base Ghostscript flags common to all compression levels, transcribed from
the `ghostscript_command` list literal (everything before the output and
input path arguments). -/
def baseFlags : List String :=
  ["gs",
   "-sDEVICE=pdfwrite",
   "-dCompatibilityLevel=1.4",
   "-dNOPAUSE",
   "-dQUIET",
   "-dBATCH",
   "-dSAFER",
   "-dEmbedAllFonts=true",
   "-dSubsetFonts=true",
   "-dCompressFonts=true",
   "-dOptimize=true",
   "-dFastWebView=true",
   "-dColorConversionStrategy=/LeaveAlone",
   "-dGrayImageDownsampleType=/Bicubic",
   "-dColorImageDownsampleType=/Bicubic",
   "-dMonoImageDownsampleType=/Bicubic"]

/-- Per-level flags appended by `ghostscript_command.extend(...)` in the
`if compression_level_hint == "extreme" / elif == "less" / else` branches. -/
def tierArgs (hint : String) : List String :=
  if hint = "extreme" then
    ["-sProcessColorModel=DeviceGray",
     "-dDownsampleColorImages=true",
     "-dDownsampleGrayImages=true",
     "-dDownsampleMonoImages=true",
     "-dColorImageResolution=15",
     "-dGrayImageResolution=15",
     "-dMonoImageResolution=30",
     "-dColorImageQuality=0",
     "-dGrayImageQuality=0",
     "-dColorImageDownsampleType=/Average",
     "-dGrayImageDownsampleType=/Average",
     "-dMonoImageDownsampleType=/Average",
     "-dUseFlateCompression=true",
     "-dEncodeColorImages=true",
     "-dEncodeGrayImages=true",
     "-dEncodeMonoImages=true",
     "-dAutoFilterColorImages=true",
     "-dAutoFilterGrayImages=true",
     "-dColorImageFilter=/DCTEncode",
     "-dGrayImageFilter=/DCTEncode",
     "-dPreserveEPSInfo=false",
     "-dPreserveOPIComments=false",
     "-dPreserveOverprintSettings=false",
     "-dDetectDuplicateImages=true",
     "-dMaxSubsetPct=10"]
  else if hint = "less" then
    ["-dDownsampleColorImages=true",
     "-dDownsampleGrayImages=true",
     "-dDownsampleMonoImages=true",
     "-dColorImageResolution=200",
     "-dGrayImageResolution=200",
     "-dMonoImageResolution=400",
     "-dColorImageQuality=80",
     "-dGrayImageQuality=80",
     "-dColorImageDownsampleType=/Bicubic",
     "-dGrayImageDownsampleType=/Bicubic",
     "-dMonoImageDownsampleType=/Bicubic",
     "-dUseFlateCompression=true",
     "-dEncodeColorImages=true",
     "-dEncodeGrayImages=true",
     "-dEncodeMonoImages=true",
     "-dAutoFilterColorImages=true",
     "-dAutoFilterGrayImages=true",
     "-dColorImageFilter=/DCTEncode",
     "-dGrayImageFilter=/DCTEncode",
     "-dMaxSubsetPct=100"]
  else
    ["-dDownsampleColorImages=true",
     "-dDownsampleGrayImages=true",
     "-dDownsampleMonoImages=true",
     "-dColorImageResolution=100",
     "-dGrayImageResolution=100",
     "-dMonoImageResolution=200",
     "-dColorImageQuality=40",
     "-dGrayImageQuality=40",
     "-dColorImageDownsampleType=/Bicubic",
     "-dGrayImageDownsampleType=/Bicubic",
     "-dMonoImageDownsampleType=/Bicubic",
     "-dUseFlateCompression=true",
     "-dEncodeColorImages=true",
     "-dEncodeGrayImages=true",
     "-dEncodeMonoImages=true",
     "-dAutoFilterColorImages=true",
     "-dAutoFilterGrayImages=true",
     "-dColorImageFilter=/DCTEncode",
     "-dGrayImageFilter=/DCTEncode",
     "-dMaxSubsetPct=50"]

/-- The full argument vector handed to `subprocess.run`: base flags, then the
output-file flag and the input path, then the level-specific flags. -/
def ghostscriptCommand (inPath outPath hint : String) : List String :=
  baseFlags ++ ["-sOutputFile=" ++ outPath, inPath] ++ tierArgs hint

/-- Numeric and color-model content of the level-specific flags, one record
per branch of the `if compression_level_hint == ...` chain.
`processColorModelGray` records whether `-sProcessColorModel=DeviceGray` is
emitted. -/
structure TierParams where
  processColorModelGray : Bool
  colorImageResolution : Nat
  grayImageResolution : Nat
  monoImageResolution : Nat
  colorImageQuality : Nat
  grayImageQuality : Nat
  maxSubsetPct : Nat
  deriving DecidableEq, Repr

/-- Parameter record of each branch (extreme / less / default-recommended). -/
def tierParams (hint : String) : TierParams :=
  if hint = "extreme" then ⟨true, 15, 15, 30, 0, 0, 10⟩
  else if hint = "less" then ⟨false, 200, 200, 400, 80, 80, 100⟩
  else ⟨false, 100, 100, 200, 40, 40, 50⟩

/-- Name of the settings branch that executes for a given hint (the branch
whose `app.logger.info("Applying ... compression settings.")` line runs):
anything other than `extreme` and `less` takes the `recommended` branch. -/
def appliedTier (hint : String) : String :=
  if hint = "extreme" then "extreme"
  else if hint = "less" then "less"
  else "recommended"

/-- The `try` block of `compress_pdf`, transcribed statement by statement.
Returns the try-block outcome, the on-disk/path-variable state at the moment
the block exits, and the trace of effectful steps that ran. -/
def compressTry (env : CompressEnv) : TryResult × St × List Event :=
  let st0 : St := ⟨false, false, false, false⟩
  match env.body with
  | none =>
    (TryResult.ret (HttpResp.clientError "No PDF file data provided"), st0,
     [Event.getJson])
  | some data =>
    match data.pdfFileBase64 with
    | none =>
      (TryResult.ret (HttpResp.clientError "No PDF file data provided"), st0,
       [Event.getJson])
    | some _pdfFileBase64 =>
      let original_filename := data.fileName.getD "document.pdf"
      let compression_level_hint := data.compressionLevel.getD "recommended"
      match env.b64decodeResult with
      | Except.error m =>
        (TryResult.exn m, st0, [Event.getJson, Event.b64decode])
      | Except.ok pdf_bytes =>
        match env.mkTempInputErr with
        | some m =>
          (TryResult.exn m, st0,
           [Event.getJson, Event.b64decode, Event.createTempInput])
        | none =>
          let st1 : St := ⟨true, false, false, false⟩
          match env.writeInputErr with
          | some m =>
            (TryResult.exn m, st1,
             [Event.getJson, Event.b64decode, Event.createTempInput,
              Event.writeTempInput])
          | none =>
            let st2 : St := ⟨true, true, false, false⟩
            match env.mkTempOutputErr with
            | some m =>
              (TryResult.exn m, st2,
               [Event.getJson, Event.b64decode, Event.createTempInput,
                Event.writeTempInput, Event.createTempOutput])
            | none =>
              let st3 : St := ⟨true, true, true, false⟩
              match env.writeOutputErr with
              | some m =>
                (TryResult.exn m, st3,
                 [Event.getJson, Event.b64decode, Event.createTempInput,
                  Event.writeTempInput, Event.createTempOutput,
                  Event.writeTempOutput])
              | none =>
                let st4 : St := ⟨true, true, true, true⟩
                let original_size_kb : Rat := (pdf_bytes.length : Rat) / 1024
                let cmd := ghostscriptCommand env.tempInputPath
                  env.tempOutputPath compression_level_hint
                match env.toolOutcome with
                | ToolOutcome.notFound m =>
                  (TryResult.exn m, st4,
                   [Event.getJson, Event.b64decode, Event.createTempInput,
                    Event.writeTempInput, Event.createTempOutput,
                    Event.writeTempOutput, Event.runTool cmd])
                | ToolOutcome.completed rc stderr =>
                  if rc ≠ 0 then
                    (TryResult.exn
                      (if stderr ≠ "" then
                        "PDF compression failed: " ++ pyStrip stderr
                      else
                        "PDF compression failed with exit code " ++
                          toString rc ++ ". No detailed error from Ghostscript."),
                     st4,
                     [Event.getJson, Event.b64decode, Event.createTempInput,
                      Event.writeTempInput, Event.createTempOutput,
                      Event.writeTempOutput, Event.runTool cmd])
                  else
                    match env.readOutputErr with
                    | some m =>
                      (TryResult.exn m, st4,
                       [Event.getJson, Event.b64decode, Event.createTempInput,
                        Event.writeTempInput, Event.createTempOutput,
                        Event.writeTempOutput, Event.runTool cmd,
                        Event.readOutput])
                    | none =>
                      let compressed_pdf_bytes := env.outputBytes
                      let compressed_size_kb : Rat :=
                        (compressed_pdf_bytes.length : Rat) / 1024
                      let compressed_pdf_base64 := b64encode compressed_pdf_bytes
                      let ne := splitext original_filename
                      let compressed_filename :=
                        ne.1 ++ "_compressed_" ++ compression_level_hint ++ ne.2
                      (TryResult.ret (HttpResp.ok
                        ⟨compressed_pdf_base64, true, compressed_filename,
                         original_size_kb, compressed_size_kb,
                         compression_level_hint⟩), st4,
                       [Event.getJson, Event.b64decode, Event.createTempInput,
                        Event.writeTempInput, Event.createTempOutput,
                        Event.writeTempOutput, Event.runTool cmd,
                        Event.readOutput])

/-- The `finally` block: unlink each temporary path whose variable was
assigned and whose file exists. -/
def finallyCleanup (st : St) : St × List Event :=
  let p1 :=
    if st.inputPathSet && st.inputFileExists then
      (⟨false, st.inputPathSet, st.outputFileExists, st.outputPathSet⟩,
       [Event.unlinkInput])
    else (st, ([] : List Event))
  let st1 := p1.1
  if st1.outputPathSet && st1.outputFileExists then
    ((⟨st1.inputFileExists, st1.inputPathSet, false, st1.outputPathSet⟩ : St),
     p1.2 ++ [Event.unlinkOutput])
  else (st1, p1.2)

/-- The whole `/compress-pdf` handler: run the `try` block, convert an
escaping exception into the generic 500 response
`Failed to compress PDF: <message>`, then run the `finally` block. -/
def compress_pdf (env : CompressEnv) : HttpResp × St × List Event :=
  let r := compressTry env
  let resp :=
    match r.1 with
    | TryResult.ret x => x
    | TryResult.exn m => HttpResp.serverError ("Failed to compress PDF: " ++ m)
  let fin := finallyCleanup r.2.1
  (resp, fin.1, r.2.2 ++ fin.2)

/-- The `/pdf-to-text` handler: validate the body, decode, open the document,
concatenate each page's text in page order, and return it UTF-8 and base64
encoded; any exception becomes the generic 500 response
`Failed to extract text from PDF: <message>`. -/
def pdf_to_text (env : TextEnv) : TextResp × List Event :=
  match env.body with
  | none => (TextResp.clientError "No PDF file data provided", [Event.getJson])
  | some data =>
    match data.pdfFileBase64 with
    | none =>
      (TextResp.clientError "No PDF file data provided", [Event.getJson])
    | some _pdfFileBase64 =>
      let original_filename := data.fileName.getD "document.pdf"
      match env.b64decodeResult with
      | Except.error m =>
        (TextResp.serverError ("Failed to extract text from PDF: " ++ m),
         [Event.getJson, Event.b64decode])
      | Except.ok _pdf_bytes =>
        match env.fitzDoc with
        | Except.error m =>
          (TextResp.serverError ("Failed to extract text from PDF: " ++ m),
           [Event.getJson, Event.b64decode, Event.openDocument])
        | Except.ok pages =>
          let extracted_text := pages.foldl (fun acc t => acc ++ t) ""
          let ne := splitext original_filename
          let text_filename := ne.1 ++ "_extracted.txt"
          let text_base64 := b64encode (utf8Encode extracted_text)
          (TextResp.ok text_base64 text_filename "text/plain",
           [Event.getJson, Event.b64decode, Event.openDocument])

/-- The `compressionLevelApplied` field of a success response, when any. -/
def compressionLevelAppliedField : HttpResp → Option String
  | HttpResp.ok p => some p.compressionLevelApplied
  | _ => none

/-- The `originalSize` field of a success response, when any. -/
def originalSizeField : HttpResp → Option Rat
  | HttpResp.ok p => some p.originalSize
  | _ => none

/-- The `compressedSize` field of a success response, when any. -/
def compressedSizeField : HttpResp → Option Rat
  | HttpResp.ok p => some p.compressedSize
  | _ => none

/-- The `body` field of a success response, when any. -/
def bodyField : HttpResp → Option String
  | HttpResp.ok p => some p.body
  | _ => none

/-- Whether a response is the generic 500 failure produced by the blanket
`except Exception` clause. -/
def isServerError : HttpResp → Bool
  | HttpResp.serverError _ => true
  | _ => false

example : b64encode [65] = "QQ==" := by decide
example : b64encode [77, 97, 110] = "TWFu" := by decide
example : splitext "document.pdf" = ("document", ".pdf") := by decide
example : appliedTier "whatever" = "recommended" := by decide

/-- Consistency of the numeric parameter records with the literal flag lists:
for every hint, each numeric field of `tierParams` appears as the
corresponding Ghostscript flag in `tierArgs`, and the grayscale flag is
emitted exactly when `processColorModelGray` is set. -/
theorem tierArgs_match_tierParams (h : String) :
    ("-dColorImageResolution=" ++ toString (tierParams h).colorImageResolution) ∈ tierArgs h ∧
    ("-dGrayImageResolution=" ++ toString (tierParams h).grayImageResolution) ∈ tierArgs h ∧
    ("-dMonoImageResolution=" ++ toString (tierParams h).monoImageResolution) ∈ tierArgs h ∧
    ("-dColorImageQuality=" ++ toString (tierParams h).colorImageQuality) ∈ tierArgs h ∧
    ("-dGrayImageQuality=" ++ toString (tierParams h).grayImageQuality) ∈ tierArgs h ∧
    ("-dMaxSubsetPct=" ++ toString (tierParams h).maxSubsetPct) ∈ tierArgs h ∧
    (("-sProcessColorModel=DeviceGray" ∈ tierArgs h) ↔
      (tierParams h).processColorModelGray = true) := by
  by_cases h1 : h = "extreme"
  · subst h1; decide
  · by_cases h2 : h = "less"
    · subst h2; decide
    · simp only [tierArgs, tierParams, h1, h2, if_false]; decide

/-- Supporting lemma: on every execution in which the two temporary-file
writes do not themselves raise, the `finally` block removes both temporary
files, whatever else happens (missing body, decode failure, temporary file
creation failure, tool absent, nonzero exit, read failure, success). -/
theorem cleanup_when_writes_succeed (env : CompressEnv)
    (hwi : env.writeInputErr = none) (hwo : env.writeOutputErr = none) :
    ((compress_pdf env).2.1).inputFileExists = false ∧
    ((compress_pdf env).2.1).outputFileExists = false := by
  obtain ⟨bo, de, mi, wi, mo, wo, tp, op, tout, re, ob⟩ := env
  dsimp only at hwi hwo
  subst hwi hwo
  rcases bo with _ | ⟨pf, fn, cl⟩
  · exact ⟨rfl, rfl⟩
  · rcases pf with _ | pfv
    · exact ⟨rfl, rfl⟩
    · rcases de with m | bytes
      · exact ⟨rfl, rfl⟩
      · rcases mi with _ | m
        · rcases mo with _ | m
          · rcases tout with m | ⟨rc, stderr⟩
            · exact ⟨rfl, rfl⟩
            · by_cases hrc : rc = 0
              · subst hrc
                rcases re with _ | m
                · exact ⟨rfl, rfl⟩
                · exact ⟨rfl, rfl⟩
              · simp [compress_pdf, compressTry, finallyCleanup, hrc]
          · exact ⟨rfl, rfl⟩
        · exact ⟨rfl, rfl⟩

/-- C5: the claim states that for the aggressive (`extreme`) tier the
resolved parameters satisfy color/gray raster resolution in 15–72, mono
resolution in 72–150, encode quality in 1–10 (0–100 scale), and grayscale
forced.  This is false for the code's `extreme` branch: the mono resolution
is 30 (below 72) and both encode qualities are 0 (below 1). -/
theorem c5_counterexample :
    ¬ (15 ≤ (tierParams "extreme").colorImageResolution ∧
       (tierParams "extreme").colorImageResolution ≤ 72 ∧
       15 ≤ (tierParams "extreme").grayImageResolution ∧
       (tierParams "extreme").grayImageResolution ≤ 72 ∧
       72 ≤ (tierParams "extreme").monoImageResolution ∧
       (tierParams "extreme").monoImageResolution ≤ 150 ∧
       1 ≤ (tierParams "extreme").colorImageQuality ∧
       (tierParams "extreme").colorImageQuality ≤ 10 ∧
       1 ≤ (tierParams "extreme").grayImageQuality ∧
       (tierParams "extreme").grayImageQuality ≤ 10 ∧
       (tierParams "extreme").processColorModelGray = true) := by decide

/-- C5 (amended): for the aggressive (`extreme`) tier the code sets color and
gray raster resolution to 15 (within the documented 15–72), mono resolution
to 30 (below the documented 72–150), both encode qualities to 0 (below the
documented 1–10), and forces grayscale via `-sProcessColorModel=DeviceGray`. -/
theorem c5_extreme_parameters :
    (tierParams "extreme").colorImageResolution = 15 ∧
    (tierParams "extreme").grayImageResolution = 15 ∧
    15 ≤ (tierParams "extreme").colorImageResolution ∧
    (tierParams "extreme").colorImageResolution ≤ 72 ∧
    (tierParams "extreme").monoImageResolution = 30 ∧
    (tierParams "extreme").colorImageQuality = 0 ∧
    (tierParams "extreme").grayImageQuality = 0 ∧
    (tierParams "extreme").processColorModelGray = true ∧
    "-sProcessColorModel=DeviceGray" ∈ tierArgs "extreme" ∧
    "-dMonoImageResolution=30" ∈ tierArgs "extreme" ∧
    "-dColorImageQuality=0" ∈ tierArgs "extreme" ∧
    "-dGrayImageQuality=0" ∈ tierArgs "extreme" := by decide

/-- C6: the claim states that for the reduced (`less`) tier the resolved
parameters satisfy color/gray raster resolution in 250–300, mono resolution
in 400–600, encode quality in 80–90, and color model left alone.  This is
false for the code's `less` branch: color and gray resolution are 200 (below
250). -/
theorem c6_counterexample :
    ¬ (250 ≤ (tierParams "less").colorImageResolution ∧
       (tierParams "less").colorImageResolution ≤ 300 ∧
       250 ≤ (tierParams "less").grayImageResolution ∧
       (tierParams "less").grayImageResolution ≤ 300 ∧
       400 ≤ (tierParams "less").monoImageResolution ∧
       (tierParams "less").monoImageResolution ≤ 600 ∧
       80 ≤ (tierParams "less").colorImageQuality ∧
       (tierParams "less").colorImageQuality ≤ 90 ∧
       80 ≤ (tierParams "less").grayImageQuality ∧
       (tierParams "less").grayImageQuality ≤ 90 ∧
       (tierParams "less").processColorModelGray = false) := by decide

/-- C6 (amended): for the reduced (`less`) tier the code sets color and gray
raster resolution to 200 (below the documented 250–300), mono resolution to
400 (within 400–600), both encode qualities to 80 (within 80–90), and leaves
the color model alone: the base flags keep
`-dColorConversionStrategy=/LeaveAlone` and the `less` branch emits no
grayscale override. -/
theorem c6_less_parameters :
    (tierParams "less").colorImageResolution = 200 ∧
    (tierParams "less").grayImageResolution = 200 ∧
    (tierParams "less").monoImageResolution = 400 ∧
    400 ≤ (tierParams "less").monoImageResolution ∧
    (tierParams "less").monoImageResolution ≤ 600 ∧
    (tierParams "less").colorImageQuality = 80 ∧
    80 ≤ (tierParams "less").colorImageQuality ∧
    (tierParams "less").colorImageQuality ≤ 90 ∧
    (tierParams "less").grayImageQuality = 80 ∧
    (tierParams "less").processColorModelGray = false ∧
    "-sProcessColorModel=DeviceGray" ∉ tierArgs "less" ∧
    "-dColorConversionStrategy=/LeaveAlone" ∈ baseFlags := by decide

/-- Environment for an unrecognized tier name on an otherwise fully
successful request: valid body, decode succeeds, both temporary files are
created and written, the tool exits 0, the output file is read back. -/
def envC1 : CompressEnv :=
  ⟨some ⟨some "JVBERi0=", some "document.pdf", some "unknown-garbage-string"⟩,
   Except.ok [37, 80, 68, 70, 45], none, none, none, none,
   "/tmp/in.pdf", "/tmp/out.pdf", ToolOutcome.completed 0 "", none, [37, 80]⟩

/-- C1: the claim states that an unrecognized tier name does not fail, that
the request proceeds with the recommended (balanced) parameter set, and that
the response lets the caller detect that this normalization occurred.  The
first two parts hold, but the detection part is false: for the unrecognized
tier `unknown-garbage-string` the tool runs with the `recommended` flag set,
yet the response's `compressionLevelApplied` field echoes the raw submitted
string instead of reporting the tier actually applied, and no other response
field records the normalization. -/
theorem c1_counterexample :
    ("unknown-garbage-string" ∉ ["extreme", "less", "recommended"]) ∧
    statusCode (compress_pdf envC1).1 = 200 ∧
    Event.runTool (ghostscriptCommand "/tmp/in.pdf" "/tmp/out.pdf" "recommended")
      ∈ (compress_pdf envC1).2.2 ∧
    appliedTier "unknown-garbage-string" = "recommended" ∧
    compressionLevelAppliedField (compress_pdf envC1).1 =
      some "unknown-garbage-string" ∧
    compressionLevelAppliedField (compress_pdf envC1).1 ≠
      some (appliedTier "unknown-garbage-string") := by decide

/-- C1 (amended): for every tier name that is neither `extreme` nor `less`,
a compress request whose remaining steps succeed does not fail: it returns
status 200 and the tool is invoked with the `recommended` parameter set; the
response's `compressionLevelApplied` field, however, echoes the submitted
tier string verbatim, so the fallback is recorded only in the server-side
log, not as a normalization indicator in the response. -/
theorem c1_unknown_tier_falls_back (b64 hint : String) (fn : Option String)
    (bytes : List Nat) (tp op stderr : String) (ob : List Nat)
    (h1 : hint ≠ "extreme") (h2 : hint ≠ "less") :
    statusCode (compress_pdf ⟨some ⟨some b64, fn, some hint⟩, Except.ok bytes,
      none, none, none, none, tp, op, ToolOutcome.completed 0 stderr, none, ob⟩).1
      = 200 ∧
    Event.runTool (ghostscriptCommand tp op "recommended")
      ∈ (compress_pdf ⟨some ⟨some b64, fn, some hint⟩, Except.ok bytes,
          none, none, none, none, tp, op, ToolOutcome.completed 0 stderr, none,
          ob⟩).2.2 ∧
    compressionLevelAppliedField (compress_pdf ⟨some ⟨some b64, fn, some hint⟩,
      Except.ok bytes, none, none, none, none, tp, op,
      ToolOutcome.completed 0 stderr, none, ob⟩).1 = some hint := by
  refine ⟨rfl, ?_, rfl⟩
  have hcmd : ghostscriptCommand tp op hint = ghostscriptCommand tp op "recommended" := by
    simp [ghostscriptCommand, tierArgs, h1, h2]
  simp [compress_pdf, compressTry, finallyCleanup, hcmd]

/-- C1 witness: the amended statement evaluated on the concrete environment
`envC1` with the unrecognized tier `unknown-garbage-string`. -/
theorem c1_witness :
    statusCode (compress_pdf envC1).1 = 200 ∧
    Event.runTool (ghostscriptCommand "/tmp/in.pdf" "/tmp/out.pdf" "recommended")
      ∈ (compress_pdf envC1).2.2 ∧
    compressionLevelAppliedField (compress_pdf envC1).1 =
      some "unknown-garbage-string" :=
  c1_unknown_tier_falls_back "JVBERi0=" "unknown-garbage-string"
    (some "document.pdf") [37, 80, 68, 70, 45] "/tmp/in.pdf" "/tmp/out.pdf" ""
    [37, 80] (by decide) (by decide)

/-- Environment in which writing the PDF bytes into the just-created
temporary input file raises (for instance the disk is full).  The
`NamedTemporaryFile(delete=False)` context has already created the file, but
`temp_input_path` is assigned only by the statement after the write, so it is
still `None` when the `finally` block runs. -/
def envC2 : CompressEnv :=
  ⟨some ⟨some "JVBERi0=", some "document.pdf", none⟩, Except.ok [37, 80],
   none, some "No space left on device", none, none,
   "/tmp/in.pdf", "/tmp/out.pdf", ToolOutcome.completed 0 "", none, []⟩

/-- C2: evaluation of the code at the failing input.  When the write into the
temporary input file raises, the request fails with 500 and, although the
input file was created on disk, the `finally` block does not unlink it
(`temp_input_path` is still `None`), so a transient file remains on storage —
contradicting both the claim and the code's own comment that temporary files
are cleaned up regardless of success or failure. -/
theorem c2_leak_on_write_failure :
    statusCode (compress_pdf envC2).1 = 500 ∧
    Event.createTempInput ∈ (compress_pdf envC2).2.2 ∧
    ((compress_pdf envC2).2.1).inputFileExists = true ∧
    Event.unlinkInput ∉ (compress_pdf envC2).2.2 ∧
    ((compress_pdf envC2).2.1).outputFileExists = false := by decide

/-- Environment in which the Ghostscript executable is absent:
`subprocess.run` raises `FileNotFoundError`. -/
def envC3 : CompressEnv :=
  ⟨some ⟨some "JVBERi0=", some "document.pdf", none⟩, Except.ok [37, 80],
   none, none, none, none, "/tmp/in.pdf", "/tmp/out.pdf",
   ToolOutcome.notFound "[Errno 2] No such file or directory: gs", none, []⟩

/-- Environment in which an unrelated step (base64 decoding) raises, used to
exhibit that the tool-absent failure has the same generic shape as any other
failure. -/
def envC3decodeFail : CompressEnv :=
  ⟨some ⟨some "%%%", some "document.pdf", none⟩,
   Except.error "Invalid base64-encoded string", none, none, none, none,
   "/tmp/in.pdf", "/tmp/out.pdf", ToolOutcome.completed 0 "", none, []⟩

/-- C3: the claim states that an absent tool executable yields a distinct,
user-actionable `ToolUnavailable` error kind rather than a generic failure.
This is false: the `FileNotFoundError` is swallowed by the blanket
`except Exception` clause and surfaces as the same generic 500
`Failed to compress PDF: ...` response that any other failure (here, a
base64 decode error) produces; no distinct error kind exists anywhere in the
handler's responses. -/
theorem c3_counterexample :
    (compress_pdf envC3).1 = HttpResp.serverError
      "Failed to compress PDF: [Errno 2] No such file or directory: gs" ∧
    statusCode (compress_pdf envC3).1 = 500 ∧
    isServerError (compress_pdf envC3).1 = true ∧
    isServerError (compress_pdf envC3decodeFail).1 = true ∧
    statusCode (compress_pdf envC3decodeFail).1 = statusCode (compress_pdf envC3).1 := by
  decide

/-- C3 (amended): if the tool executable is absent from the host (the
subprocess invocation raises with message `m`), the compress operation fails
with the generic 500 response `Failed to compress PDF: m` — the same shape
as every other failure — rather than a distinct `ToolUnavailable` kind. -/
theorem c3_tool_absent_generic_500 (b64 : String) (fn cl : Option String)
    (bytes : List Nat) (tp op m : String) (re : Option String) (ob : List Nat) :
    (compress_pdf ⟨some ⟨some b64, fn, cl⟩, Except.ok bytes, none, none, none,
      none, tp, op, ToolOutcome.notFound m, re, ob⟩).1 =
      HttpResp.serverError ("Failed to compress PDF: " ++ m) ∧
    statusCode (compress_pdf ⟨some ⟨some b64, fn, cl⟩, Except.ok bytes, none,
      none, none, none, tp, op, ToolOutcome.notFound m, re, ob⟩).1 = 500 ∧
    isServerError (compress_pdf ⟨some ⟨some b64, fn, cl⟩, Except.ok bytes,
      none, none, none, none, tp, op, ToolOutcome.notFound m, re, ob⟩).1 = true :=
  ⟨rfl, rfl, rfl⟩

/-- Environment in which the tool completes with exit code 1 and a stderr
text that carries a trailing newline, as Ghostscript diagnostics do. -/
def envC4 : CompressEnv :=
  ⟨some ⟨some "JVBERi0=", some "document.pdf", none⟩, Except.ok [37, 80],
   none, none, none, none, "/tmp/in.pdf", "/tmp/out.pdf",
   ToolOutcome.completed 1 "boom\n", none, [1, 2, 3]⟩

/-- C4: the claim states that on a nonzero tool exit the operation fails with
a distinct `ExternalToolFailure` carrying the stderr text verbatim.  This is
false on two counts: the failure is the same generic 500 shape as any other
error, and the stderr text is embedded only after `str.strip()` — for stderr
`"boom\n"` the response message does not contain the verbatim text.  The
part about the output file holds: it is not read. -/
theorem c4_counterexample :
    (compress_pdf envC4).1 = HttpResp.serverError
      "Failed to compress PDF: PDF compression failed: boom" ∧
    ¬ List.IsInfix "boom\n".data
      "Failed to compress PDF: PDF compression failed: boom".data ∧
    isServerError (compress_pdf envC4).1 = true ∧
    Event.readOutput ∉ (compress_pdf envC4).2.2 := by decide

/-- C4 (amended): whenever the tool exits with a nonzero code, the compress
operation fails with the generic 500 response whose message embeds the
tool's stderr stripped of surrounding whitespace when stderr is nonempty
(or a message naming the exit code when stderr is empty), and the tool's
output file is never read: no read event occurs on this path. -/
theorem c4_nonzero_exit (b64 : String) (fn cl : Option String)
    (bytes : List Nat) (tp op : String) (rc : Int) (stderr : String)
    (re : Option String) (ob : List Nat) (hrc : rc ≠ 0) :
    (compress_pdf ⟨some ⟨some b64, fn, cl⟩, Except.ok bytes, none, none, none,
      none, tp, op, ToolOutcome.completed rc stderr, re, ob⟩).1 =
      HttpResp.serverError ("Failed to compress PDF: " ++
        (if stderr ≠ "" then "PDF compression failed: " ++ pyStrip stderr
         else "PDF compression failed with exit code " ++ toString rc ++
           ". No detailed error from Ghostscript.")) ∧
    Event.readOutput ∉ (compress_pdf ⟨some ⟨some b64, fn, cl⟩, Except.ok bytes,
      none, none, none, none, tp, op, ToolOutcome.completed rc stderr, re,
      ob⟩).2.2 := by
  constructor
  · simp [compress_pdf, compressTry, finallyCleanup, hrc]
  · simp [compress_pdf, compressTry, finallyCleanup, hrc]

/-- C4 witness: the amended statement evaluated on the concrete environment
`envC4` (exit code 1, stderr with a trailing newline). -/
theorem c4_witness :
    (compress_pdf envC4).1 = HttpResp.serverError
      "Failed to compress PDF: PDF compression failed: boom" ∧
    Event.readOutput ∉ (compress_pdf envC4).2.2 := by
  have h := c4_nonzero_exit "JVBERi0=" (some "document.pdf") none [37, 80]
    "/tmp/in.pdf" "/tmp/out.pdf" 1 "boom\n" none [1, 2, 3] (by decide)
  exact ⟨h.1.trans (by decide), h.2⟩

/-- Fully successful environment with a 1-byte input document and a 1-byte
output document. -/
def envC7 : CompressEnv :=
  ⟨some ⟨some "JQ==", some "document.pdf", none⟩, Except.ok [37],
   none, none, none, none, "/tmp/in.pdf", "/tmp/out.pdf",
   ToolOutcome.completed 0 "", none, [99]⟩

/-- C7: the claim states that `originalSize` equals the raw byte count of the
input bytes and `compressedSize` the raw byte count of the output bytes.
This is false: the handler divides both counts by 1024 and reports
kilobytes.  For a 1-byte input and a 1-byte output the fields are 1/1024,
not 1. -/
theorem c7_counterexample :
    originalSizeField (compress_pdf envC7).1 = some ((1 : Rat) / 1024) ∧
    compressedSizeField (compress_pdf envC7).1 = some ((1 : Rat) / 1024) ∧
    ([37] : List Nat).length = 1 ∧ envC7.outputBytes.length = 1 ∧
    originalSizeField (compress_pdf envC7).1 ≠
      some ((([37] : List Nat).length : Rat)) ∧
    compressedSizeField (compress_pdf envC7).1 ≠
      some ((([99] : List Nat).length : Rat)) := by
  have h1 : originalSizeField (compress_pdf envC7).1 =
      some ((([37] : List Nat).length : Rat) / 1024) := rfl
  have h2 : compressedSizeField (compress_pdf envC7).1 =
      some ((([99] : List Nat).length : Rat) / 1024) := rfl
  refine ⟨?_, ?_, rfl, rfl, ?_, ?_⟩
  · rw [h1]; norm_num
  · rw [h2]; norm_num
  · rw [h1]; norm_num
  · rw [h2]; norm_num

/-- C7 (amended): for every successful compress request, the returned
`originalSize` equals the input byte count divided by 1024 and the returned
`compressedSize` equals the output byte count divided by 1024 (kilobyte
values, not raw byte counts). -/
theorem c7_sizes_in_kilobytes (b64 : String) (fn cl : Option String)
    (bytes : List Nat) (tp op stderr : String) (ob : List Nat) :
    originalSizeField (compress_pdf ⟨some ⟨some b64, fn, cl⟩, Except.ok bytes,
      none, none, none, none, tp, op, ToolOutcome.completed 0 stderr, none,
      ob⟩).1 = some ((bytes.length : Rat) / 1024) ∧
    compressedSizeField (compress_pdf ⟨some ⟨some b64, fn, cl⟩, Except.ok bytes,
      none, none, none, none, tp, op, ToolOutcome.completed 0 stderr, none,
      ob⟩).1 = some ((ob.length : Rat) / 1024) :=
  ⟨rfl, rfl⟩

/-- Environment whose tool output (5 bytes) is larger than its input
(2 bytes), the pathological growth case. -/
def envC8 : CompressEnv :=
  ⟨some ⟨some "JVA=", some "document.pdf", none⟩, Except.ok [37, 80],
   none, none, none, none, "/tmp/in.pdf", "/tmp/out.pdf",
   ToolOutcome.completed 0 "", none, [1, 2, 3, 4, 5]⟩

/-- C8: when the external tool exits 0, the compress operation returns
exactly the bytes read back from the tool's output file (base64 encoded),
together with both size fields, with no condition relating the two sizes —
so the pathological case where the output is larger than the input is
returned as-is, and the original input bytes are never substituted.  The
final conjuncts evaluate the pathological case concretely: a 2-byte input
with a 5-byte output returns the 5-byte output, whose encoding differs from
the input's. -/
theorem c8_returns_tool_output :
    (∀ (b64 : String) (fn cl : Option String) (bytes : List Nat)
       (tp op stderr : String) (ob : List Nat),
      (compress_pdf ⟨some ⟨some b64, fn, cl⟩, Except.ok bytes, none, none,
        none, none, tp, op, ToolOutcome.completed 0 stderr, none, ob⟩).1 =
        HttpResp.ok ⟨b64encode ob, true,
          (splitext (fn.getD "document.pdf")).1 ++ "_compressed_" ++
            cl.getD "recommended" ++ (splitext (fn.getD "document.pdf")).2,
          (bytes.length : Rat) / 1024, (ob.length : Rat) / 1024,
          cl.getD "recommended"⟩) ∧
    bodyField (compress_pdf envC8).1 = some (b64encode [1, 2, 3, 4, 5]) ∧
    b64encode [1, 2, 3, 4, 5] ≠ b64encode [37, 80] ∧
    ([37, 80] : List Nat).length < ([1, 2, 3, 4, 5] : List Nat).length := by
  refine ⟨fun b64 fn cl bytes tp op stderr ob => rfl, by decide, by decide, by decide⟩

/-- Environment for a text-extraction request over a two-page document. -/
def envC9 : TextEnv :=
  ⟨some ⟨some "JVBERi0=", some "doc.pdf", none⟩, Except.ok [37, 80],
   Except.ok ["Hello ", "world"]⟩

/-- C9: the text-extraction endpoint returns the concatenation of each
page's extracted text in page order from the first page to the last (UTF-8
then base64 encoded), and on input that `fitz.open` cannot parse it fails
with the 500 error response rather than returning any partial text. -/
theorem c9_text_extraction :
    (∀ (b64 : String) (fn cl : Option String) (bytes : List Nat)
       (pages : List String),
      (pdf_to_text ⟨some ⟨some b64, fn, cl⟩, Except.ok bytes,
        Except.ok pages⟩).1 =
        TextResp.ok (b64encode (utf8Encode (String.join pages)))
          ((splitext (fn.getD "document.pdf")).1 ++ "_extracted.txt")
          "text/plain") ∧
    (∀ (b64 : String) (fn cl : Option String) (bytes : List Nat) (m : String),
      (pdf_to_text ⟨some ⟨some b64, fn, cl⟩, Except.ok bytes,
        Except.error m⟩).1 =
        TextResp.serverError ("Failed to extract text from PDF: " ++ m)) := by
  constructor
  · intro b64 fn cl bytes pages
    rfl
  · intro b64 fn cl bytes m
    rfl

/-- C9 witness: the two-page document of `envC9` yields the pages' texts
concatenated in page order. -/
theorem c9_witness :
    (pdf_to_text envC9).1 =
      TextResp.ok (b64encode (utf8Encode (String.join ["Hello ", "world"])))
        ((splitext "doc.pdf").1 ++ "_extracted.txt") "text/plain" ∧
    String.join ["Hello ", "world"] = "Hello world" :=
  ⟨(c9_text_extraction.1 "JVBERi0=" (some "doc.pdf") none [37, 80]
      ["Hello ", "world"]).trans (by decide),
   by decide⟩

/-- C10: for both endpoints, a request whose JSON body is absent or lacks
the `pdfFileBase64` field is answered with status 400 and the message
`No PDF file data provided`, and the execution trace contains only the
`get_json` step: no base64 decoding, no temporary-file creation, no tool
invocation, and no document opening happens first. -/
theorem c10_missing_data_rejected :
    (∀ (de : Except String (List Nat)) (mi wi mo wo : Option String)
       (tp op : String) (tl : ToolOutcome) (re : Option String) (ob : List Nat),
      (compress_pdf ⟨none, de, mi, wi, mo, wo, tp, op, tl, re, ob⟩).1 =
        HttpResp.clientError "No PDF file data provided" ∧
      statusCode (compress_pdf ⟨none, de, mi, wi, mo, wo, tp, op, tl, re, ob⟩).1
        = 400 ∧
      (compress_pdf ⟨none, de, mi, wi, mo, wo, tp, op, tl, re, ob⟩).2.2 =
        [Event.getJson]) ∧
    (∀ (fn cl : Option String) (de : Except String (List Nat))
       (mi wi mo wo : Option String) (tp op : String) (tl : ToolOutcome)
       (re : Option String) (ob : List Nat),
      (compress_pdf ⟨some ⟨none, fn, cl⟩, de, mi, wi, mo, wo, tp, op, tl, re,
        ob⟩).1 = HttpResp.clientError "No PDF file data provided" ∧
      statusCode (compress_pdf ⟨some ⟨none, fn, cl⟩, de, mi, wi, mo, wo, tp,
        op, tl, re, ob⟩).1 = 400 ∧
      (compress_pdf ⟨some ⟨none, fn, cl⟩, de, mi, wi, mo, wo, tp, op, tl, re,
        ob⟩).2.2 = [Event.getJson]) ∧
    (∀ (de : Except String (List Nat)) (fz : Except String (List String)),
      (pdf_to_text ⟨none, de, fz⟩).1 =
        TextResp.clientError "No PDF file data provided" ∧
      textStatusCode (pdf_to_text ⟨none, de, fz⟩).1 = 400 ∧
      (pdf_to_text ⟨none, de, fz⟩).2 = [Event.getJson]) ∧
    (∀ (fn cl : Option String) (de : Except String (List Nat))
       (fz : Except String (List String)),
      (pdf_to_text ⟨some ⟨none, fn, cl⟩, de, fz⟩).1 =
        TextResp.clientError "No PDF file data provided" ∧
      textStatusCode (pdf_to_text ⟨some ⟨none, fn, cl⟩, de, fz⟩).1 = 400 ∧
      (pdf_to_text ⟨some ⟨none, fn, cl⟩, de, fz⟩).2 = [Event.getJson]) := by
  refine ⟨fun de mi wi mo wo tp op tl re ob => ⟨rfl, rfl, rfl⟩,
    fun fn cl de mi wi mo wo tp op tl re ob => ⟨rfl, rfl, rfl⟩,
    fun de fz => ⟨rfl, rfl, rfl⟩,
    fun fn cl de fz => ⟨rfl, rfl, rfl⟩⟩
